import Mathlib

set_option autoImplicit false

/-!
Verification development for the S3 + NATS document-processing service.

The definitions below are a shallow embedding of the Python sources:
`docling_worker.py` (options classifier, simple-option mapping, worker
request handler and dispatch loop) and `s3_client.py` (bucket management
and the client-side submit state machine).  External collaborators (the
docling `DocumentConverter`, the S3 SDK, the NATS broker) are modelled as
oracle parameters that report success or failure of each side-effecting
call; each embedded function returns the trace of calls it issued together
with its outcome.
-/

namespace Pdf

/-- JSON-like values appearing inside an options descriptor mapping.
`jnested` stands for a nested mapping value (for example the value of
`format_options`), recording only its top-level keys. -/
inductive JVal where
  | jnull
  | jbool (b : Bool)
  | jnum (n : Int)
  | jstr (s : String)
  | jlist (xs : List String)
  | jnested (keys : List String)
deriving DecidableEq, Repr

/-- Python truthiness of a `JVal` (what `if value:` tests). -/
def JVal.truthy : JVal → Bool
  | .jnull => false
  | .jbool b => b
  | .jnum n => n != 0
  | .jstr s => s != ""
  | .jlist xs => !xs.isEmpty
  | .jnested ks => !ks.isEmpty

/-- An options descriptor as decoded from the request envelope JSON:
a mapping, or any non-mapping JSON value. -/
inductive Descriptor where
  | dict (kvs : List (String × JVal))
  | list (xs : List JVal)
  | str (s : String)
  | num (n : Int)
  | boolv (b : Bool)
  | nullv
deriving DecidableEq, Repr

/-- Python truthiness of a descriptor (what `if not docling_options:` tests). -/
def Descriptor.truthy : Descriptor → Bool
  | .dict kvs => !kvs.isEmpty
  | .list xs => !xs.isEmpty
  | .str s => s != ""
  | .num n => n != 0
  | .boolv b => b
  | .nullv => false

/-- Whether the descriptor is a mapping (`isinstance(options, dict)`). -/
def Descriptor.isDict : Descriptor → Bool
  | .dict _ => true
  | _ => false

/-- Python `key in options` on a mapping. -/
def dictHasKey (kvs : List (String × JVal)) (k : String) : Bool :=
  kvs.any (fun kv => kv.1 == k)

/-- Python `options.get(key)`: the value bound to `k`, if any. -/
def dictGet (kvs : List (String × JVal)) (k : String) : Option JVal :=
  (kvs.find? (fun kv => kv.1 == k)).map (fun kv => kv.2)

/-- Python `options.get(key, default)`. -/
def dictGetD (kvs : List (String × JVal)) (k : String) (d : JVal) : JVal :=
  (dictGet kvs k).getD d

/-- The `simple_keys` vocabulary of `DoclingWorker._is_simple_options`
(docling_worker.py lines 90-120), verbatim. -/
def simple_keys : List String :=
  [ "vlm_model", "do_picture_description", "images_scale", "custom_prompt", "vlm_prompt",
    "vlm_batch_size", "vlm_picture_area_threshold", "vlm_generation_config",
    "do_picture_classification", "do_code_enrichment", "do_formula_enrichment",
    "do_table_structure", "do_ocr",
    "ocr_languages", "force_full_page_ocr", "ocr_bitmap_area_threshold",
    "ocr_use_gpu", "ocr_confidence_threshold", "ocr_model_storage_directory",
    "ocr_recog_network", "ocr_download_enabled",
    "table_do_cell_matching", "table_mode",
    "generate_picture_images", "generate_page_images", "generate_table_images",
    "create_legacy_output", "document_timeout", "enable_remote_services",
    "allow_external_plugins", "artifacts_path", "force_backend_text",
    "generate_parsed_pages",
    "accelerator_device", "num_threads", "cuda_use_flash_attention2",
    "input_formats" ]

/-- The `complex_keys` set of `DoclingWorker._is_simple_options`
(docling_worker.py line 121). -/
def complex_keys : List String :=
  [ "format_options", "accelerator_options" ]

/-- Embeds `DoclingWorker._is_simple_options` (docling_worker.py lines 84-126):
non-mappings are never simple; a mapping is simple when it has at least one
`simple_keys` key and no `complex_keys` key. -/
def is_simple_options (options : Descriptor) : Bool :=
  match options with
  | .dict kvs =>
    let has_simple := simple_keys.any (fun k => dictHasKey kvs k)
    let has_complex := complex_keys.any (fun k => dictHasKey kvs k)
    has_simple && !has_complex
  | _ => false

/-- Engine configuration handed to the converter constructor: either the
output of the simple-option mapping, or the rich descriptor passed through
unchanged. -/
inductive ConvArg (α : Type) where
  | simple (cfg : α)
  | rich (d : Descriptor)
deriving DecidableEq

/-- A constructed document converter: the standard (default-configuration)
converter or one built from an engine configuration. -/
inductive Converter (β : Type) where
  | standard
  | built (c : β)
deriving DecidableEq

/-- Embeds `DoclingWorker._create_document_converter` (docling_worker.py
lines 47-82).  The simple-option mapping and the external
`DocumentConverter` constructor are parameters that may raise (return
`Except.error`); the whole attempt is wrapped in `try/except` and falls
back to the standard converter.  The Boolean component records whether the
fallback warning was printed. -/
def create_document_converter {α β : Type}
    (convertSimple : Descriptor → Except String α)
    (mkConverter : ConvArg α → Except String β)
    (docling_options : Descriptor) : Converter β × Bool :=
  if !docling_options.truthy then
    (Converter.standard, false)
  else
    let body : Except String β :=
      if is_simple_options docling_options then
        match convertSimple docling_options with
        | .error e => .error e
        | .ok cfg => mkConverter (ConvArg.simple cfg)
      else
        mkConverter (ConvArg.rich docling_options)
    match body with
    | .ok c => (Converter.built c, false)
    | .error _ => (Converter.standard, true)

/-- C2: for every options descriptor that is a mapping, the classifier
reports simple exactly when some simple-vocabulary key is present and
neither `format_options` nor `accelerator_options` is present; in every
other case the descriptor is classified rich (not simple). -/
theorem c2_simple_iff_vocab_and_no_rich_key (kvs : List (String × JVal)) :
    is_simple_options (.dict kvs) = true ↔
      ((∃ k, k ∈ simple_keys ∧ dictHasKey kvs k = true) ∧
       dictHasKey kvs "format_options" = false ∧
       dictHasKey kvs "accelerator_options" = false) := by
  simp only [is_simple_options, complex_keys, List.any_cons, List.any_nil,
    Bool.or_false, Bool.and_eq_true, Bool.not_eq_true', Bool.or_eq_false_iff,
    List.any_eq_true]

/-- A simple-option mapping that always succeeds (used to instantiate the
parametric converter builder at concrete inputs). -/
def csOkUnit : Descriptor → Except String Unit := fun _ => Except.ok ()

/-- A simple-option mapping that raises (models a mapping exception). -/
def csFailUnit : Descriptor → Except String Unit := fun _ => Except.error "ValueError"

/-- A converter constructor that always succeeds. -/
def mkOkUnit : ConvArg Unit → Except String Unit := fun _ => Except.ok ()

/-- A converter constructor that raises (models `DocumentConverter(**cfg)`
rejecting its keyword arguments). -/
def mkFailUnit : ConvArg Unit → Except String Unit := fun _ => Except.error "TypeError"

/-- A descriptor holding both a simple-form key and a rich-form key. -/
def mixedOptions : Descriptor :=
  .dict [("do_ocr", JVal.jbool true), ("format_options", JVal.jnested ["pdf"])]

/-- A purely simple-form descriptor. -/
def simpleOcrOptions : Descriptor := .dict [("do_ocr", JVal.jbool true)]

/-- C3: a descriptor holding both simple-form and rich-form keys is
classified rich; the converter builder hands it unchanged to the rich
pass-through (the simple-option mapping is never consulted), and whatever
the constructor does, the builder returns a converter — a failing mixed
descriptor falls back to the standard converter instead of failing the
request. -/
theorem c3_mixed_descriptor_is_rich_and_total {α β : Type}
    (convertSimple : Descriptor → Except String α)
    (mkConverter : ConvArg α → Except String β)
    (kvs : List (String × JVal))
    (_hs : ∃ k, k ∈ simple_keys ∧ dictHasKey kvs k = true)
    (hr : dictHasKey kvs "format_options" = true ∨
          dictHasKey kvs "accelerator_options" = true) :
    is_simple_options (.dict kvs) = false ∧
    create_document_converter convertSimple mkConverter (.dict kvs) =
      (match mkConverter (ConvArg.rich (.dict kvs)) with
       | .ok c => (Converter.built c, false)
       | .error _ => (Converter.standard, true)) := by
  have hne : kvs ≠ [] := by
    rcases hr with h | h <;>
    · rw [dictHasKey, List.any_eq_true] at h
      obtain ⟨kv, hkv, _⟩ := h
      intro hnil
      rw [hnil] at hkv
      exact absurd hkv (List.not_mem_nil kv)
  have ht : Descriptor.truthy (.dict kvs) = true := by
    simp [Descriptor.truthy, hne]
  have hsimple : is_simple_options (.dict kvs) = false := by
    simp only [is_simple_options, complex_keys, List.any_cons, List.any_nil, Bool.or_false]
    rcases hr with h | h <;> simp [h]
  refine ⟨hsimple, ?_⟩
  simp only [create_document_converter, ht, hsimple, Bool.not_true, Bool.false_eq_true,
    if_false]

/-- Witness for C3 at a concrete mixed descriptor with a rejecting
constructor: classified rich and fallen back to the standard converter
with the warning flag set. -/
theorem c3_mixed_descriptor_witness :
    is_simple_options mixedOptions = false ∧
    create_document_converter csOkUnit mkFailUnit mixedOptions = (Converter.standard, true) := by
  have h := c3_mixed_descriptor_is_rich_and_total csOkUnit mkFailUnit
    [("do_ocr", JVal.jbool true), ("format_options", JVal.jnested ["pdf"])]
    ⟨"do_ocr", by decide, by decide⟩ (Or.inl (by decide))
  exact ⟨h.1, h.2.trans rfl⟩

/-- C5: when the simple-option mapping raises on a (truthy, simple-classified)
descriptor, the builder catches the exception and returns the standard
converter with the fallback warning set; the request is not aborted. -/
theorem c5_mapping_exception_falls_back {α β : Type}
    (convertSimple : Descriptor → Except String α)
    (mkConverter : ConvArg α → Except String β)
    (d : Descriptor) (e : String)
    (ht : d.truthy = true)
    (hsimple : is_simple_options d = true)
    (hf : convertSimple d = Except.error e) :
    create_document_converter convertSimple mkConverter d = (Converter.standard, true) := by
  simp [create_document_converter, ht, hsimple, hf]

/-- Witness for C5: a concrete simple descriptor whose mapping raises ends
in the standard-converter fallback with the warning flag. -/
theorem c5_mapping_exception_witness :
    create_document_converter csFailUnit mkOkUnit simpleOcrOptions = (Converter.standard, true) :=
  c5_mapping_exception_falls_back csFailUnit mkOkUnit simpleOcrOptions "ValueError"
    (by decide) (by decide) rfl

/-- C9 counterexample: the empty list is a non-mapping descriptor, yet it is
not routed to the rich pass-through path: `if not docling_options:` is
already true for a falsy value, so the standard converter is returned
without consulting the constructor — which here would have produced a
built converter had the rich path been taken. -/
theorem c9_falsy_nonmapping_counterexample :
    create_document_converter csOkUnit mkOkUnit (Descriptor.list []) = (Converter.standard, false) ∧
    (match mkOkUnit (ConvArg.rich (Descriptor.list [])) with
     | .ok c => ((Converter.built c, false) : Converter Unit × Bool)
     | .error _ => (Converter.standard, true)) = (Converter.built (), false) ∧
    ((Converter.standard, false) : Converter Unit × Bool) ≠ (Converter.built (), false) :=
  ⟨rfl, rfl, by decide⟩

/-- C9 amended: a non-mapping descriptor is never classified simple; a
truthy non-mapping is routed to the rich pass-through (where construction
failure triggers the default fallback), while a falsy one short-circuits
to the standard converter before any routing. -/
theorem c9_nonmapping_never_simple {α β : Type}
    (convertSimple : Descriptor → Except String α)
    (mkConverter : ConvArg α → Except String β)
    (d : Descriptor) (hd : d.isDict = false) :
    is_simple_options d = false ∧
    (d.truthy = true →
      create_document_converter convertSimple mkConverter d =
        (match mkConverter (ConvArg.rich d) with
         | .ok c => (Converter.built c, false)
         | .error _ => (Converter.standard, true))) ∧
    (d.truthy = false →
      create_document_converter convertSimple mkConverter d = (Converter.standard, false)) := by
  have hsimple : is_simple_options d = false := by
    cases d <;> simp_all [Descriptor.isDict, is_simple_options]
  refine ⟨hsimple, fun ht => ?_, fun ht => ?_⟩
  · simp only [create_document_converter, ht, hsimple, Bool.not_true, Bool.false_eq_true,
      if_false]
  · simp [create_document_converter, ht]

/-- Witness for the amended C9 at a truthy non-mapping descriptor. -/
theorem c9_nonmapping_witness :
    is_simple_options (Descriptor.str "fast") = false ∧
    create_document_converter csOkUnit mkOkUnit (Descriptor.str "fast") =
      (Converter.built (), false) := by
  have h := c9_nonmapping_never_simple csOkUnit mkOkUnit (Descriptor.str "fast") rfl
  exact ⟨h.1, (h.2.1 (by decide)).trans rfl⟩

/-- Python `a or b` on two optional lookup results: the first operand when
it is truthy, otherwise the second. -/
def pyOr (a b : Option JVal) : Option JVal :=
  match a with
  | some v => if v.truthy then some v else b
  | none => b

/-- Truthiness of an optional lookup result (`None` is falsy). -/
def optTruthy (o : Option JVal) : Bool :=
  match o with
  | some v => v.truthy
  | none => false

/-- ASCII lower-casing of one character (the effect of Python `str.lower`
on the ASCII model names involved). -/
def pyLowerChar (c : Char) : Char :=
  if 65 <= c.toNat ∧ c.toNat <= 90 then Char.ofNat (c.toNat + 32) else c

/-- Python `s.lower()` on an ASCII string, structurally recursive so that
it evaluates on concrete inputs. -/
def pyLower (s : String) : String := ⟨s.data.map pyLowerChar⟩

/-- Canonical Granite vision model identifier (docling_worker.py line 204). -/
def graniteRepoId : String := "ibm-granite/granite-vision-3.1-2b-preview"

/-- Canonical SmolVLM model identifier (docling_worker.py line 206). -/
def smolvlmRepoId : String := "HuggingFaceTB/SmolVLM-256M-Instruct"

/-- The repository identifier chosen for a (lower-cased) `vlm_model` value
in the custom-prompt branch (docling_worker.py lines 203-208): granite и
smolvlm are recognized, everything else falls back to Granite. -/
def repoForModel (m : String) : String :=
  if m = "granite" then graniteRepoId
  else if m = "smoldocling" || m = "smolvlm" then smolvlmRepoId
  else graniteRepoId

/-- The `picture_description_options` value produced by the VLM block:
one of the two preset model configurations, or a
`PictureDescriptionVlmOptions` record built for a custom prompt. -/
inductive PicDescOptions where
  | presetGranite
  | presetSmolvlm
  | vlmOptions (repoId : String) (prompt : String)
deriving DecidableEq, Repr

/-- Outcome of the VLM picture-description block: the selected
`picture_description_options` (none when `do_picture_description` is not
enabled) and whether the unknown-model warning was printed. -/
structure VlmSelection where
  picDesc : Option PicDescOptions
  warnedUnknownVlm : Bool
deriving DecidableEq, Repr

/-- Python `simple_options.get('vlm_model', 'granite').lower()`
(docling_worker.py lines 202 and 233): missing key defaults to granite; a
non-string value raises on `.lower()`. -/
def getVlmModelLower (kvs : List (String × JVal)) : Except String String :=
  match dictGet kvs "vlm_model" with
  | none => .ok "granite"
  | some (.jstr s) => .ok (pyLower s)
  | some _ => .error "AttributeError: lower"

/-- Embeds the VLM picture-description block of
`DoclingWorker._convert_simple_options` (docling_worker.py lines 189-242):
when `do_picture_description` is truthy, a truthy `custom_prompt` (or
`vlm_prompt`) selects `PictureDescriptionVlmOptions` with the repository
identifier mapped from `vlm_model` and the custom prompt (a non-string
truthy prompt raises when the log line slices it); otherwise one of the
preset configurations is selected, warning when the model is unknown.
Exceptions propagate to the caller, where `_create_document_converter`
catches them. -/
def convert_simple_options_vlm (kvs : List (String × JVal)) : Except String VlmSelection :=
  if (dictGetD kvs "do_picture_description" (JVal.jbool false)).truthy then
    if optTruthy (pyOr (dictGet kvs "custom_prompt") (dictGet kvs "vlm_prompt")) then
      match getVlmModelLower kvs with
      | .error e => .error e
      | .ok m =>
        match pyOr (dictGet kvs "custom_prompt") (dictGet kvs "vlm_prompt") with
        | some (.jstr p) => .ok ⟨some (.vlmOptions (repoForModel m) p), false⟩
        | _ => .error "TypeError: slicing the prompt for the log line"
    else
      match getVlmModelLower kvs with
      | .error e => .error e
      | .ok m =>
        if m = "granite" then .ok ⟨some .presetGranite, false⟩
        else if m = "smoldocling" || m = "smolvlm" then .ok ⟨some .presetSmolvlm, false⟩
        else .ok ⟨some .presetGranite, true⟩
  else
    .ok ⟨none, false⟩

/-- C8 counterexample: with `do_picture_description` enabled, an unknown
`vlm_model` together with a custom prompt selects the Granite identifier
but prints no warning — the unknown-model warning exists only in the
no-custom-prompt branch, so the claim that an unknown value selects
Granite *with a warning* fails here. -/
theorem c8_unknown_model_no_warning_counterexample :
    convert_simple_options_vlm
      [("do_picture_description", JVal.jbool true),
       ("vlm_model", JVal.jstr "llava"),
       ("custom_prompt", JVal.jstr "Describe the image")] =
      .ok ⟨some (.vlmOptions graniteRepoId "Describe the image"), false⟩ ∧
    ¬("llava" = "granite" ∨ "llava" = "smoldocling" ∨ "llava" = "smolvlm") := by
  refine ⟨rfl, by decide⟩

/-- C8 amended: with `do_picture_description` enabled and a string
`vlm_model`, granite maps to the canonical Granite identifier and
smolvlm/smoldocling to the canonical SmolVLM identifier, any unknown value
falls back to Granite — with a warning only in the no-custom-prompt
branch; a truthy custom prompt always selects the
`PictureDescriptionVlmOptions` record carrying that prompt in place of the
selected model default. -/
theorem c8_vlm_model_mapping (kvs : List (String × JVal)) (m : String)
    (hpd : (dictGetD kvs "do_picture_description" (JVal.jbool false)).truthy = true)
    (hm : dictGet kvs "vlm_model" = some (.jstr m)) :
    (∀ p : String, p ≠ "" →
      pyOr (dictGet kvs "custom_prompt") (dictGet kvs "vlm_prompt") = some (.jstr p) →
      convert_simple_options_vlm kvs =
        .ok ⟨some (.vlmOptions (repoForModel (pyLower m)) p), false⟩) ∧
    (optTruthy (pyOr (dictGet kvs "custom_prompt") (dictGet kvs "vlm_prompt")) = false →
      convert_simple_options_vlm kvs =
        .ok ⟨some (if pyLower m = "granite" then PicDescOptions.presetGranite
                   else if pyLower m = "smoldocling" || pyLower m = "smolvlm" then
                     PicDescOptions.presetSmolvlm
                   else PicDescOptions.presetGranite),
             !(pyLower m = "granite" || pyLower m = "smoldocling" || pyLower m = "smolvlm")⟩) ∧
    (repoForModel "granite" = graniteRepoId ∧
     repoForModel "smolvlm" = smolvlmRepoId ∧
     repoForModel "smoldocling" = smolvlmRepoId ∧
     (pyLower m ≠ "granite" → pyLower m ≠ "smolvlm" → pyLower m ≠ "smoldocling" →
       repoForModel (pyLower m) = graniteRepoId)) := by
  refine ⟨?_, ?_, by decide, by decide, by decide, ?_⟩
  · intro p hp hcp
    have hpt : optTruthy (pyOr (dictGet kvs "custom_prompt") (dictGet kvs "vlm_prompt")) = true := by
      rw [hcp]
      simp [optTruthy, JVal.truthy, hp]
    rw [convert_simple_options_vlm, if_pos hpd, if_pos hpt, getVlmModelLower, hm, hcp]
  · intro hfalsy
    rw [convert_simple_options_vlm, if_pos hpd, hfalsy]
    simp only [Bool.false_eq_true, if_false, getVlmModelLower, hm]
    by_cases hg : pyLower m = "granite"
    · simp [hg]
    · by_cases hsd : pyLower m = "smoldocling"
      · simp [hg, hsd]
      · by_cases hsv : pyLower m = "smolvlm"
        · simp [hg, hsd, hsv]
        · simp [hg, hsd, hsv]
  · intro h1 h2 h3
    rw [repoForModel, if_neg h1, if_neg (by simp [h2, h3])]

/-- Witness for the amended C8 at a concrete descriptor: unknown model with
a custom prompt yields the Granite identifier carrying the custom prompt
and no warning. -/
theorem c8_vlm_model_mapping_witness :
    convert_simple_options_vlm
      [("do_picture_description", JVal.jbool true),
       ("vlm_model", JVal.jstr "SmolVLM"),
       ("vlm_prompt", JVal.jstr "List the chart labels")] =
      .ok ⟨some (.vlmOptions smolvlmRepoId "List the chart labels"), false⟩ := by
  have h := c8_vlm_model_mapping
    [("do_picture_description", JVal.jbool true),
     ("vlm_model", JVal.jstr "SmolVLM"),
     ("vlm_prompt", JVal.jstr "List the chart labels")]
    "SmolVLM" (by decide) (by decide)
  have h2 := h.1 "List the chart labels" (by decide) (by decide)
  exact h2.trans rfl

/-- Result of the `head_bucket` probe as observed by
`_ensure_bucket_exists`: success, or a `ClientError` carrying its error
code. -/
inductive HeadBucketResult where
  | ok
  | clientError (code : String)
deriving DecidableEq, Repr

/-- S3 calls issued by `_ensure_bucket_exists`; the create call records the
optional `LocationConstraint` argument it was given. -/
inductive BucketEv where
  | headBucket (bucket : String)
  | createBucket (bucket : String) (locationConstraint : Option String)
deriving DecidableEq, Repr

/-- Embeds `S3DocumentClient._ensure_bucket_exists` (s3_client.py lines
68-93): probe with `head_bucket`; on a 404 `ClientError` create the
bucket, omitting the `LocationConstraint` argument exactly for region
us-east-1 (a failing create is logged and re-raised); any other
`ClientError` code is re-raised without a create call. -/
def ensure_bucket_exists (region bucket : String)
    (head : HeadBucketResult) (createOk : Bool) :
    List BucketEv × Except String Unit :=
  match head with
  | .ok => ([.headBucket bucket], .ok ())
  | .clientError code =>
    if code = "404" then
      let createEv :=
        if region = "us-east-1" then BucketEv.createBucket bucket none
        else BucketEv.createBucket bucket (some region)
      ([.headBucket bucket, createEv],
       if createOk then .ok () else .error "create failed")
    else
      ([.headBucket bucket], .error code)

/-- C7: `ensure_bucket` is idempotent and region-aware — a create call is
issued exactly when the probe reports the 404 not-found code, an existing
bucket is left untouched and reported as success, and every create call
carries no location constraint exactly when the region is us-east-1 and
carries the region otherwise. -/
theorem c7_ensure_bucket_idempotent_region_aware
    (region bucket : String) (head : HeadBucketResult) (createOk : Bool) :
    ((∃ lc, BucketEv.createBucket bucket lc ∈
        (ensure_bucket_exists region bucket head createOk).1) ↔
      head = HeadBucketResult.clientError "404") ∧
    (head = HeadBucketResult.ok →
      ensure_bucket_exists region bucket head createOk =
        ([BucketEv.headBucket bucket], Except.ok ())) ∧
    (∀ lc, BucketEv.createBucket bucket lc ∈
        (ensure_bucket_exists region bucket head createOk).1 →
      ((region = "us-east-1" → lc = none) ∧
       (region ≠ "us-east-1" → lc = some region))) := by
  cases head with
  | ok => simp [ensure_bucket_exists]
  | clientError code =>
    by_cases hc : code = "404"
    · subst hc
      by_cases hr : region = "us-east-1" <;>
        simp_all [ensure_bucket_exists]
    · simp_all [ensure_bucket_exists]

/-- Witness for C7: a 404 probe in a non-canonical region issues a create
call, and a successful probe issues none. -/
theorem c7_ensure_bucket_witness :
    (∃ lc, BucketEv.createBucket "documents" lc ∈
      (ensure_bucket_exists "eu-west-1" "documents"
        (HeadBucketResult.clientError "404") true).1) ∧
    ensure_bucket_exists "us-east-1" "documents" HeadBucketResult.ok true =
      ([BucketEv.headBucket "documents"], Except.ok ()) := by
  refine ⟨?_, ?_⟩
  · exact (c7_ensure_bucket_idempotent_region_aware "eu-west-1" "documents"
      (HeadBucketResult.clientError "404") true).1.mpr rfl
  · exact (c7_ensure_bucket_idempotent_region_aware "us-east-1" "documents"
      HeadBucketResult.ok true).2.1 rfl

/-- A document source as accepted by `process_document`: a filesystem path
or an in-memory byte buffer (the number stands for the bytes). -/
inductive Source where
  | filePath (p : String)
  | rawBytes (size : Nat)
deriving DecidableEq, Repr

/-- The S3 transfer method `_upload_to_s3` selects for a source
(s3_client.py lines 142-163): paths go through `upload_file` (managed,
multipart-capable transfer), anything else through `put_object`. -/
inductive UploadMethod where
  | transferFile
  | putObject
deriving DecidableEq, Repr

/-- The `isinstance` dispatch of `_upload_to_s3` on the source. -/
def upload_method : Source → UploadMethod
  | .filePath _ => .transferFile
  | .rawBytes _ => .putObject

/-- Broker and object-store calls issued by one `process_document` run. -/
inductive CEv where
  | uploadAttempt (key : String) (m : UploadMethod)
  | consumerCreated (durable : String)
  | published (subject : String)
  | consumerDeleteAttempt (durable : String)
  | consumerCleanupWarning
  | objectDeleteAttempt (key : String)
  | objectCleanupWarning
deriving DecidableEq, Repr

/-- What arrives on the per-request reply consumer within the timeout. -/
inductive WaitOutcome where
  | gotSuccessReply
  | gotErrorReply (e : String)
  | timedOut
deriving DecidableEq, Repr

/-- External-world behaviour observed during one `process_document` run:
whether each side-effecting call succeeds, and what the reply fetch
returns. -/
structure ClientOracle where
  uploadOk : Bool
  subscribeOk : Bool
  publishOk : Bool
  wait : WaitOutcome
  deleteConsumerOk : Bool
  deleteObjectOk : Bool
deriving DecidableEq, Repr

/-- Outcome of a `process_document` call: a returned result or a raised
exception. -/
inductive SubmitOutcome where
  | returnedResult
  | raisedError (msg : String)
deriving DecidableEq, Repr

/-- Default NATS subject hierarchy root (config.py, `NatsConfig`). -/
def subjectRoot : String := "docs"

/-- Embeds `S3DocumentClient._cleanup_consumer` (s3_client.py lines
223-231): the consumer delete is attempted and any failure is logged as a
warning and suppressed — the function always returns normally. -/
def cleanup_consumer (requestId : String) (deleteOk : Bool) : List CEv :=
  if deleteOk then [CEv.consumerDeleteAttempt ("result_" ++ requestId)]
  else [CEv.consumerDeleteAttempt ("result_" ++ requestId), CEv.consumerCleanupWarning]

/-- Embeds `S3DocumentClient._cleanup_s3_object` (s3_client.py lines
233-243): the payload delete is attempted and any failure is logged and
suppressed. -/
def cleanup_s3_object (key : String) (deleteOk : Bool) : List CEv :=
  if deleteOk then [CEv.objectDeleteAttempt key]
  else [CEv.objectDeleteAttempt key, CEv.objectCleanupWarning]

/-- Embeds `S3DocumentClient.process_document` (s3_client.py lines 95-140)
as a trace-producing state machine: upload under `raw/<id>.pdf`, create
the per-request consumer, publish the request, wait for the reply; the
inner `finally` always runs `_cleanup_consumer`, and the outer `except`
deletes the payload when `cleanup_on_error` is set before re-raising. -/
def process_document (requestId : String) (source : Source)
    (cleanupOnError : Bool) (o : ClientOracle) : List CEv × SubmitOutcome :=
  let s3Key := "raw/" ++ requestId ++ ".pdf"
  let onError (tr : List CEv) (msg : String) : List CEv × SubmitOutcome :=
    (tr ++ (if cleanupOnError then cleanup_s3_object s3Key o.deleteObjectOk else []),
     SubmitOutcome.raisedError msg)
  let tr0 := [CEv.uploadAttempt s3Key (upload_method source)]
  if !o.uploadOk then onError tr0 "upload failed"
  else
    if !o.subscribeOk then onError tr0 "pull_subscribe failed"
    else
      let tr1 := tr0 ++ [CEv.consumerCreated ("result_" ++ requestId)]
      let tr2 := tr1 ++ [CEv.published (subjectRoot ++ ".process." ++ requestId)]
      let innerErr : Option String :=
        if !o.publishOk then some "publish failed"
        else
          match o.wait with
          | .gotSuccessReply => none
          | .gotErrorReply e => some e
          | .timedOut => some "Processing timed out"
      let tr3 := tr2 ++ cleanup_consumer requestId o.deleteConsumerOk
      match innerErr with
      | none => (tr3, SubmitOutcome.returnedResult)
      | some msg => onError tr3 msg

/-- C6: on every exit of `process_document` a consumer that was created is
also torn down (the delete is attempted on the reply, timeout and error
paths alike); every error exit with cleanup-on-error enabled additionally
attempts to delete the payload object; and the call outcome never depends
on whether the two cleanup deletes themselves succeed — their failures are
suppressed. -/
theorem c6_cleanup_on_every_exit (requestId : String) (source : Source)
    (cleanupOnError : Bool) (u s p : Bool) (w : WaitOutcome) (dc dObj : Bool) :
    (CEv.consumerCreated ("result_" ++ requestId) ∈
        (process_document requestId source cleanupOnError ⟨u, s, p, w, dc, dObj⟩).1 →
      CEv.consumerDeleteAttempt ("result_" ++ requestId) ∈
        (process_document requestId source cleanupOnError ⟨u, s, p, w, dc, dObj⟩).1) ∧
    (∀ msg,
      (process_document requestId source cleanupOnError ⟨u, s, p, w, dc, dObj⟩).2 =
          SubmitOutcome.raisedError msg →
      cleanupOnError = true →
      CEv.objectDeleteAttempt ("raw/" ++ requestId ++ ".pdf") ∈
        (process_document requestId source cleanupOnError ⟨u, s, p, w, dc, dObj⟩).1) ∧
    (process_document requestId source cleanupOnError ⟨u, s, p, w, dc, dObj⟩).2 =
      (process_document requestId source cleanupOnError ⟨u, s, p, w, true, true⟩).2 := by
  cases u <;> cases s <;> cases p <;> cases w <;> cases dc <;> cases dObj <;>
    cases cleanupOnError <;>
      simp_all [process_document, cleanup_consumer, cleanup_s3_object]

/-- Witness for C6 at a concrete failing run (reply reports an engine
error, consumer delete itself fails): the consumer delete and payload
delete are both attempted. -/
theorem c6_cleanup_witness :
    CEv.consumerDeleteAttempt ("result_" ++ "req1") ∈
      (process_document "req1" (Source.rawBytes 4096) true
        ⟨true, true, true, WaitOutcome.gotErrorReply "parse failure", false, true⟩).1 ∧
    CEv.objectDeleteAttempt ("raw/" ++ "req1" ++ ".pdf") ∈
      (process_document "req1" (Source.rawBytes 4096) true
        ⟨true, true, true, WaitOutcome.gotErrorReply "parse failure", false, true⟩).1 := by
  have h := c6_cleanup_on_every_exit "req1" (Source.rawBytes 4096) true
    true true true (WaitOutcome.gotErrorReply "parse failure") false true
  exact ⟨h.1 (by decide), h.2.1 "parse failure" (by decide) rfl⟩

/-- C10: the payload object key of a submit call is exactly
`raw/<request_id>.pdf` — the recorded upload always uses that key, with
the fixed `pdf` extension, whatever the source (file path of any
extension, or byte buffer). -/
theorem c10_payload_key_fixed (requestId : String) (source : Source)
    (cleanupOnError : Bool) (o : ClientOracle) :
    (∀ k m, CEv.uploadAttempt k m ∈
        (process_document requestId source cleanupOnError o).1 →
      k = "raw/" ++ requestId ++ ".pdf" ∧ m = upload_method source) ∧
    CEv.uploadAttempt ("raw/" ++ requestId ++ ".pdf") (upload_method source) ∈
      (process_document requestId source cleanupOnError o).1 := by
  obtain ⟨u, s, p, w, dc, dObj⟩ := o
  cases u <;> cases s <;> cases p <;> cases w <;> cases dc <;> cases dObj <;>
    cases cleanupOnError <;>
      simp_all [process_document, cleanup_consumer, cleanup_s3_object]

/-- Witness for C10: a submit whose source is a file path with a non-pdf
extension still uploads under the `.pdf` payload key. -/
theorem c10_payload_key_witness :
    CEv.uploadAttempt "raw/r42.pdf" UploadMethod.transferFile ∈
      (process_document "r42" (Source.filePath "scan.docx") true
        ⟨true, true, true, WaitOutcome.gotSuccessReply, true, true⟩).1 ∧
    "raw/r42.pdf" = "raw/" ++ "r42" ++ ".pdf" := by
  have h := c10_payload_key_fixed "r42" (Source.filePath "scan.docx") true
    ⟨true, true, true, WaitOutcome.gotSuccessReply, true, true⟩
  exact ⟨h.2, (h.1 "raw/r42.pdf" UploadMethod.transferFile h.2).1⟩

/-- A decoded request envelope as the worker reads it (`request.get`). -/
structure WRequest where
  requestId : Option String
  s3Key : Option String
deriving DecidableEq, Repr

/-- External-world behaviour for one `process_document_request` run:
whether the envelope JSON decoded (and to what), and whether each
subsequent call — S3 download, engine conversion, results-stream ensure,
reply publish, and the error-path ensure and publish — succeeds. -/
structure WorkerOracle where
  decoded : Option WRequest
  downloadOk : Bool
  convertOk : Bool
  ensureResultsStreamOk : Bool
  publishResultOk : Bool
  errEnsureStreamOk : Bool
  errPublishOk : Bool
deriving DecidableEq, Repr

/-- Status discriminant of a published reply envelope. -/
inductive ReplyStatus where
  | success
  | error
deriving DecidableEq, Repr

/-- Observable actions of the worker while handling one message. -/
inductive WEv where
  | publishedReply (subject : String) (status : ReplyStatus)
  | ack
  | nak
  | tempFileRemoved
deriving DecidableEq, Repr

/-- How `process_document_request` returns: normally, or by raising an
exception out of the coroutine. -/
inductive WOutcome where
  | handled
  | crashed (exn : String)
deriving DecidableEq, Repr

/-- Embeds `DoclingWorker.process_document_request` (docling_worker.py
lines 501-678).  The success path publishes the success reply, acks, and
removes the temp file.  Any exception after decoding lands in the handler,
which best-effort publishes an error reply (its own failures swallowed by
`except: pass`) and naks.  When decoding itself fails, the handler reads
the local `request` before it was ever assigned (line 649), so the handler
raises `UnboundLocalError`: no reply, no ack, no nak — the exception
escapes the method. -/
def process_document_request (o : WorkerOracle) : List WEv × WOutcome :=
  match o.decoded with
  | none => ([], .crashed "UnboundLocalError")
  | some req =>
    let errorPath : List WEv :=
      (if o.errEnsureStreamOk && o.errPublishOk then
        [WEv.publishedReply
          (subjectRoot ++ ".result." ++ req.requestId.getD "unknown") ReplyStatus.error]
       else []) ++ [WEv.nak]
    if !o.downloadOk then (errorPath, .handled)
    else if !o.convertOk then (errorPath, .handled)
    else if !o.ensureResultsStreamOk then (errorPath, .handled)
    else if !o.publishResultOk then (errorPath, .handled)
    else
      ([WEv.publishedReply
          (subjectRoot ++ ".result." ++
            (match req.requestId with | some r => r | none => "None"))
          ReplyStatus.success,
        WEv.ack, WEv.tempFileRemoved], .handled)

/-- An oracle where the engine raises a deterministic conversion error and
the error reply publishes successfully. -/
def engineErrorOracle : WorkerOracle :=
  ⟨some ⟨some "r1", some "raw/r1.pdf"⟩, true, false, true, true, true, true⟩

/-- C1 counterexample: when the engine raises and the error reply is
published successfully, the worker naks — it does not ack — so the claimed
biconditional (ack iff some reply was successfully published) fails. -/
theorem c1_ack_iff_reply_counterexample :
    process_document_request engineErrorOracle =
      ([WEv.publishedReply ("docs" ++ ".result." ++ "r1") ReplyStatus.error, WEv.nak],
       WOutcome.handled) ∧
    WEv.ack ∉ (process_document_request engineErrorOracle).1 ∧
    (∃ s, WEv.publishedReply s ReplyStatus.error ∈
      (process_document_request engineErrorOracle).1) := by
  refine ⟨rfl, by decide, ⟨"docs" ++ ".result." ++ "r1", by decide⟩⟩

/-- C1 amended: the worker acks iff the success reply was published (the
whole success path completed), and ack happens exactly when a success
reply is in the trace; on any post-decode failure it naks — never acks —
after best-effort publishing an error reply, which lands in the trace
exactly when the error-path ensure and publish both succeed; on a decode
failure it neither acks nor naks, the handler itself raising out of the
method. -/
theorem c1_ack_only_with_success_reply (o : WorkerOracle) :
    (o.decoded = none →
      process_document_request o = ([], WOutcome.crashed "UnboundLocalError")) ∧
    (∀ req, o.decoded = some req →
      ((WEv.ack ∈ (process_document_request o).1) ↔
        (o.downloadOk ∧ o.convertOk ∧ o.ensureResultsStreamOk ∧ o.publishResultOk)) ∧
      ((WEv.ack ∈ (process_document_request o).1) ↔
        (∃ s, WEv.publishedReply s ReplyStatus.success ∈ (process_document_request o).1)) ∧
      (¬(o.downloadOk ∧ o.convertOk ∧ o.ensureResultsStreamOk ∧ o.publishResultOk) →
        WEv.nak ∈ (process_document_request o).1 ∧
        WEv.ack ∉ (process_document_request o).1 ∧
        ((∃ s, WEv.publishedReply s ReplyStatus.error ∈ (process_document_request o).1) ↔
          (o.errEnsureStreamOk ∧ o.errPublishOk))) ∧
      (process_document_request o).2 = WOutcome.handled) := by
  obtain ⟨dec, dl, cv, es, pr, ee, ep⟩ := o
  cases dec <;>
    cases dl <;> cases cv <;> cases es <;> cases pr <;> cases ee <;> cases ep <;>
      simp_all [process_document_request]

/-- Witness for the amended C1 at the engine-error oracle: error reply
published, nak present, no ack, handler returned normally. -/
theorem c1_ack_only_witness :
    WEv.nak ∈ (process_document_request engineErrorOracle).1 ∧
    WEv.ack ∉ (process_document_request engineErrorOracle).1 ∧
    (process_document_request engineErrorOracle).2 = WOutcome.handled := by
  have h := (c1_ack_only_with_success_reply engineErrorOracle).2
    ⟨some "r1", some "raw/r1.pdf"⟩ rfl
  have h3 := h.2.2.1 (by simp [engineErrorOracle])
  exact ⟨h3.1, h3.2.1, h.2.2.2⟩

/-- Embeds the fetch loop of `DoclingWorker.start_listening`
(docling_worker.py lines 713-729): messages are handled one by one; the
inner `try` catches only `asyncio.TimeoutError`, so an exception escaping
`process_document_request` terminates the loop.  Returns how many messages
were handled and whether the loop was still alive at the end of the
sequence. -/
def dispatch_loop : List WorkerOracle → Nat × Bool
  | [] => (0, true)
  | m :: rest =>
    match process_document_request m with
    | (_, .handled) =>
      let r := dispatch_loop rest
      (r.1 + 1, r.2)
    | (_, .crashed _) => (0, false)

/-- A message whose body is not valid JSON. -/
def badJsonMessage : WorkerOracle := ⟨none, true, true, true, true, true, true⟩

/-- A well-formed request message whose whole pipeline succeeds. -/
def okMessage : WorkerOracle :=
  ⟨some ⟨some "r2", some "raw/r2.pdf"⟩, true, true, true, true, true, true⟩

/-- C4 failing input evaluated: a message whose JSON fails to decode makes
the handler raise `UnboundLocalError` (no nak), which terminates the
dispatch loop before any later message is handled, while a faulty but
decodable request leaves the loop alive. -/
theorem c4_decode_failure_terminates_loop :
    process_document_request badJsonMessage = ([], WOutcome.crashed "UnboundLocalError") ∧
    WEv.nak ∉ (process_document_request badJsonMessage).1 ∧
    dispatch_loop [badJsonMessage, okMessage] = (0, false) ∧
    dispatch_loop [⟨some ⟨some "r3", none⟩, false, true, true, true, true, true⟩, okMessage] =
      (2, true) := by
  refine ⟨rfl, by decide, rfl, rfl⟩

end Pdf
